import Mathlib

/-!
Verification of the RBAC authorization and data-scoping layer of the
FULL_INTEGRATION repository.

The definitions below are a shallow embedding of the Python sources:
* `modules/db/models.py` — the relational data model (rows become structures,
  tables become lists inside a `DB` record; nullable integer columns become
  `Option Nat`; `DateTime` columns and surrogate log ids are not modeled as no
  authorization decision reads them);
* `chatbot/services/rbac_service.py` — `RBACService`;
* `chatbot/services/data_access.py` — `DataAccessLayer`;
* `chatbot/app/query_classifier.py` — `classify_query`;
* `chatbot/app/chatbot_handler.py` — `ChatbotHandler.process_query` and
  `ChatbotHandler._filter_results`.

SQLAlchemy queries ending in `.first() is not None` become `List.any`;
queries ending in `.all()` become `List.filter`.  Mutation of the session
(`log_access`) becomes explicit state passing of the `DB` record.
-/

namespace FullIntegration

/-- Row of the `employee` table: the columns the RBAC layer reads.
`manager_id` is nullable (`none` = SQL NULL). -/
structure Employee where
  id : Nat
  name : String
  email : String
  phone : String
  status : String
  manager_id : Option Nat
deriving DecidableEq

/-- Row of the `role` table. -/
structure Role where
  id : Nat
  name : String
deriving DecidableEq

/-- Row of the `permission` table. -/
structure Permission where
  id : Nat
  name : String
  resource_type : String
deriving DecidableEq

/-- Row of the `user_role` association table. -/
structure UserRole where
  employee_id : Nat
  role_id : Nat
deriving DecidableEq

/-- Row of the `role_permission` association table. -/
structure RolePermission where
  role_id : Nat
  permission_id : Nat
deriving DecidableEq

/-- Row of the `team_member` table, with the `is_manager` flag. -/
structure TeamMember where
  team_id : Nat
  employee_id : Nat
  is_manager : Bool
deriving DecidableEq

/-- Row of the `task` table.  `team_id` is nullable. -/
structure Task where
  id : Nat
  title : String
  description : String
  status : String
  priority : String
  assigned_to_id : Nat
  created_by_id : Nat
  team_id : Option Nat
deriving DecidableEq

/-- Row of the `meeting` table: the id is an opaque string (UUID). -/
structure Meeting where
  id : String
  title : String
deriving DecidableEq

/-- Row of the `meeting_transcript` table: speaker turns keyed by meeting id
and a free-text speaker `name` (not a foreign key; surrogate id not
modeled). -/
structure MeetingTranscript where
  meeting_id : String
  name : String
  text : String
  processed : Bool
deriving DecidableEq

/-- Row of the append-only `access_log` table (surrogate id and timestamp
columns are not modeled; rows are ordered by insertion in the list). -/
structure AccessLog where
  employee_id : Nat
  resource_type : String
  resource_id : Nat
  action : String
  success : Bool
deriving DecidableEq

/-- The relational store the authorization core reads, plus the audit log it
writes.  Tables are lists of rows. -/
structure DB where
  employees : List Employee
  roles : List Role
  permissions : List Permission
  user_roles : List UserRole
  role_permissions : List RolePermission
  team_members : List TeamMember
  tasks : List Task
  meetings : List Meeting
  meeting_transcripts : List MeetingTranscript
  access_logs : List AccessLog
deriving DecidableEq

/-- Embeds `db.query(Employee).filter(Employee.id == employee_id).first()`. -/
def firstEmployee (db : DB) (employee_id : Nat) : Option Employee :=
  db.employees.find? fun e => e.id == employee_id

/-- Embeds `db.query(Task).filter(Task.id == task_id).first()`. -/
def firstTask (db : DB) (task_id : Nat) : Option Task :=
  db.tasks.find? fun t => t.id == task_id

/-- Embeds `RBACService.has_permission`: the join
Permission ⋈ RolePermission ⋈ UserRole filtered by employee and permission
name, and by `resource_type` when one is given, is non-empty. -/
def hasPermission (db : DB) (employee_id : Nat) (permission_name : String)
    (resource_type : Option String) : Bool :=
  db.permissions.any fun p =>
    p.name == permission_name
    && (match resource_type with
        | some rt => p.resource_type == rt
        | none => true)
    && db.role_permissions.any fun rp =>
        rp.permission_id == p.id
        && db.user_roles.any fun ur =>
            ur.role_id == rp.role_id && ur.employee_id == employee_id

/-- Embeds `RBACService.has_role`: the join UserRole ⋈ Role filtered by
employee and role name is non-empty. -/
def hasRole (db : DB) (employee_id : Nat) (role_name : String) : Bool :=
  db.user_roles.any fun ur =>
    ur.employee_id == employee_id
    && db.roles.any fun r => r.id == ur.role_id && r.name == role_name

/-- Embeds `RBACService.is_team_manager`: a TeamMember row for this employee
and team with the `is_manager` flag set exists. -/
def isTeamManager (db : DB) (employee_id team_id : Nat) : Bool :=
  db.team_members.any fun tm =>
    tm.employee_id == employee_id && tm.team_id == team_id && tm.is_manager

/-- Embeds `RBACService.get_employee_teams`. -/
def getEmployeeTeams (db : DB) (employee_id : Nat) : List Nat :=
  (db.team_members.filter fun tm => tm.employee_id == employee_id).map
    (fun tm => tm.team_id)

/-- Embeds `RBACService.get_user_roles`: the join Role ⋈ UserRole filtered by
employee.  The composite primary key of `user_role` makes the join return
each role at most once, so a filter over `roles` is the faithful reading. -/
def getUserRoles (db : DB) (employee_id : Nat) : List Role :=
  db.roles.filter fun r =>
    db.user_roles.any fun ur => ur.role_id == r.id && ur.employee_id == employee_id

/-- Embeds `RBACService.log_access`: append one AccessLog row and commit. -/
def logAccess (db : DB) (employee_id : Nat) (resource_type : String)
    (resource_id : Nat) (action : String) (success : Bool) : DB :=
  { db with access_logs :=
      db.access_logs ++ [⟨employee_id, resource_type, resource_id, action, success⟩] }

/-- Python truthiness of the nullable integer column `task.team_id`:
both `None` and `0` are falsy in `if task.team_id`. -/
def optNatTruthy : Option Nat → Bool
  | none => false
  | some n => n != 0

/-- Embeds `RBACService.can_access_task`.  The guard on the team branch is
the Python truthiness test `if task.team_id and self.is_team_manager(...)`. -/
def canAccessTask (db : DB) (employee_id task_id : Nat) (action : String) : Bool :=
  match firstTask db task_id with
  | none => false
  | some task =>
    if task.assigned_to_id == employee_id then true
    else if task.created_by_id == employee_id then true
    else if optNatTruthy task.team_id
        && isTeamManager db employee_id (task.team_id.getD 0) then true
    else if action == "view" && hasRole db employee_id "hr"
        && hasPermission db employee_id "view_all_employees" none then true
    else false

/-- Embeds `RBACService.filter_tasks_for_user`.  Note that no `log_access`
call occurs anywhere in this function.  The manager branch's
`Task.team_id.in_(managed_team_ids)` is SQL `IN`: a NULL `team_id` never
matches. -/
def filterTasksForUser (db : DB) (employee_id : Nat) : List Task :=
  if ((getUserRoles db employee_id).map Role.name).contains "hr" then
    db.tasks
  else if ((getUserRoles db employee_id).map Role.name).contains "manager" then
    db.tasks.filter fun t =>
      t.assigned_to_id == employee_id || t.created_by_id == employee_id
      || (match t.team_id with
          | some g =>
            (((db.team_members.filter fun tm =>
                tm.employee_id == employee_id && tm.is_manager).map
              (fun tm => tm.team_id)).contains g)
          | none => false)
  else
    db.tasks.filter fun t =>
      t.assigned_to_id == employee_id || t.created_by_id == employee_id

/-- Outcome of `DataAccessLayer.get_employee`: the serialized employee record
(`_serialize_employee` is the identity on the modeled columns), the
"Employee not found" error, or the "Access denied" error. -/
inductive EmpResult where
  | found : Employee → EmpResult
  | notFound : EmpResult
  | denied : EmpResult
deriving DecidableEq

/-- Embeds `DataAccessLayer.get_employee`; returns the outcome together with
the session state after the `log_access` commits. -/
def getEmployee (db : DB) (employee_id current_user_id : Nat) : EmpResult × DB :=
  match firstEmployee db employee_id with
  | none => (EmpResult.notFound, db)
  | some employee =>
    if employee_id == current_user_id then
      (EmpResult.found employee,
       logAccess db current_user_id "employee" employee_id "view" true)
    else if employee.manager_id == some current_user_id then
      (EmpResult.found employee,
       logAccess db current_user_id "employee" employee_id "view" true)
    else if hasRole db current_user_id "hr"
        && hasPermission db current_user_id "view_all_employees" none then
      (EmpResult.found employee,
       logAccess db current_user_id "employee" employee_id "view" true)
    else
      (EmpResult.denied,
       logAccess db current_user_id "employee" employee_id "view" false)

/-- Embeds `DataAccessLayer.get_employees`.  Every branch reports no error;
the regular-employee branch writes no log row when the actor does not exist. -/
def getEmployees (db : DB) (current_user_id : Nat) : List Employee × DB :=
  if hasRole db current_user_id "hr"
      && hasPermission db current_user_id "view_all_employees" none then
    (db.employees, logAccess db current_user_id "employees" 0 "view_all" true)
  else if hasRole db current_user_id "manager" then
    (db.employees.filter fun e =>
       e.id == current_user_id || e.manager_id == some current_user_id,
     logAccess db current_user_id "employees" 0 "view_team" true)
  else
    match firstEmployee db current_user_id with
    | some employee =>
      ([employee], logAccess db current_user_id "employee" current_user_id "view" true)
    | none => ([], db)

/-- Outcome of `DataAccessLayer.get_task`. -/
inductive TaskResult where
  | found : Task → TaskResult
  | notFound : TaskResult
  | denied : TaskResult
deriving DecidableEq

/-- Embeds `DataAccessLayer.get_task`. -/
def getTask (db : DB) (task_id current_user_id : Nat) : TaskResult × DB :=
  match firstTask db task_id with
  | none => (TaskResult.notFound, db)
  | some task =>
    if canAccessTask db current_user_id task_id "view" then
      (TaskResult.found task, logAccess db current_user_id "task" task_id "view" true)
    else
      (TaskResult.denied, logAccess db current_user_id "task" task_id "view" false)

/-- Embeds `DataAccessLayer.get_tasks`.  The `log_access` call in the source
is commented out, so the session state is returned unchanged; the
`isinstance(tasks, list)` guard can never fire because
`filter_tasks_for_user` always returns a list. -/
def getTasks (db : DB) (current_user_id : Nat) : List Task × DB :=
  (filterTasksForUser db current_user_id, db)

/-- Embeds `db.query(Meeting).filter(Meeting.id == meeting_id).first()`. -/
def firstMeeting (db : DB) (meeting_id : String) : Option Meeting :=
  db.meetings.find? fun m => m.id == meeting_id

/-- Embeds `RBACService.can_access_meeting`: HR with "view_all_transcripts";
or the actor's name appears as a speaker of the meeting; or the actor holds
role "manager" and some direct subordinate's name appears as a speaker
(SQL `IN` over the subordinate names).  A non-existent actor is denied
unless the HR branch already allowed. -/
def canAccessMeeting (db : DB) (employee_id : Nat) (meeting_id : String) : Bool :=
  if hasRole db employee_id "hr"
      && hasPermission db employee_id "view_all_transcripts" none then true
  else
    match firstEmployee db employee_id with
    | none => false
    | some employee =>
      if db.meeting_transcripts.any fun t =>
          t.meeting_id == meeting_id && t.name == employee.name then true
      else if hasRole db employee_id "manager"
          && db.meeting_transcripts.any fun t =>
              t.meeting_id == meeting_id
              && (((db.employees.filter fun s =>
                      s.manager_id == some employee_id).map
                    Employee.name).contains t.name) then true
      else false

/-- Outcome of `DataAccessLayer.get_meeting` (`_serialize_meeting` reduced
to the modeled columns). -/
inductive MeetingResult where
  | found : Meeting → MeetingResult
  | notFound : MeetingResult
  | denied : MeetingResult
deriving DecidableEq

/-- Embeds `DataAccessLayer.get_meeting`: both terminal decisions log one
row with resource_id 0 (meeting ids are strings). -/
def getMeeting (db : DB) (meeting_id : String) (current_user_id : Nat) :
    MeetingResult × DB :=
  match firstMeeting db meeting_id with
  | none => (MeetingResult.notFound, db)
  | some meeting =>
    if canAccessMeeting db current_user_id meeting_id then
      (MeetingResult.found meeting,
       logAccess db current_user_id "meeting" 0 "view" true)
    else
      (MeetingResult.denied,
       logAccess db current_user_id "meeting" 0 "view" false)

/-- Lowercasing of the query text, modeled character by character
(`query_text.lower()` in `classify_query`; faithful on ASCII). -/
def lowerChars (s : String) : List Char :=
  s.toList.map Char.toLower

/-- The candidate sequence is a prefix of the text. -/
def leadsWith : List Char → List Char → Bool
  | [], _ => true
  | _ :: _, [] => false
  | a :: as, b :: bs => a == b && leadsWith as bs

/-- The candidate sequence occurs contiguously somewhere in the text:
the Python substring test `needle in hay`. -/
def occursIn (needle : List Char) : List Char → Bool
  | [] => needle.isEmpty
  | c :: cs => leadsWith needle (c :: cs) || occursIn needle cs

/-- Python `needle in query_text` on the lowercased query. -/
def strIn (needle : String) (hay : List Char) : Bool :=
  occursIn needle.toList hay

/-- Embeds `app/query_classifier.py` `classify_query`.  Pure keyword
matching; returns `(none, none)` when no rule matches.  The two arms of the
meeting branch coincide in the source and are kept as written. -/
def classify_query (query_text : String) : Option String × Option String :=
  let q := lowerChars query_text
  if strIn "task" q || strIn "tasks" q then
    if strIn "my tasks" q || strIn "show my tasks" q then
      (some "tasks", some "view_own_tasks")
    else if strIn "team tasks" q || strIn "show team tasks" q then
      (some "tasks", some "view_team_tasks")
    else if strIn "create task" q || strIn "add task" q then
      (some "tasks", some "assign_tasks")
    else
      (some "tasks", some "view_own_tasks")
  else if strIn "meeting" q || strIn "meetings" q then
    if strIn "my meetings" q || strIn "show meetings" q then
      (some "meetings", some "view_own_transcripts")
    else
      (some "meetings", some "view_own_transcripts")
  else if strIn "employee" q || strIn "employees" q || strIn "team members" q then
    if strIn "all employees" q || strIn "list employees" q then
      (some "employees", some "view_all_employees")
    else if strIn "my team" q || strIn "team members" q then
      (some "employees", some "view_team_employees")
    else
      (some "employees", some "view_own_employee")
  else if strIn "performance" q || strIn "sentiment" q then
    (some "performance", some "view_own_performance")
  else
    (none, none)

/-- Value stored under a key of a row returned by the external SQL agent. -/
inductive Val where
  | vnat : Nat → Val
  | vstr : String → Val
  | vnull : Val
deriving DecidableEq

/-- A keyed record (Python dict) returned by the external SQL agent. -/
abbrev Row := List (String × Val)

/-- Python `row.get(key)`: the value under the key, `vnull` when absent. -/
def rowGet (row : Row) (key : String) : Val :=
  match row.find? (fun kv => kv.1 == key) with
  | some kv => kv.2
  | none => Val.vnull

/-- An element of the list the SQL agent returned: either a dict or
something that fails `isinstance(row, dict)`. -/
inductive RawRow where
  | dict : Row → RawRow
  | nonDict : RawRow
deriving DecidableEq

/-- Python `isinstance(row, dict)`. -/
def RawRow.isDict : RawRow → Bool
  | .dict _ => true
  | .nonDict => false

/-- The payload the SQL agent returned: either a list of elements or
something that fails `isinstance(data, list)`. -/
inductive RawInput where
  | nonList : RawInput
  | rows : List RawRow → RawInput
deriving DecidableEq

/-- The dict elements of a list of raw elements (identity when every element
is a dict). -/
def dictRows (rs : List RawRow) : List Row :=
  rs.filterMap fun r =>
    match r with
    | RawRow.dict d => some d
    | RawRow.nonDict => none

/-- Embeds `ChatbotHandler._filter_results`.  First component: the returned
rows.  Second component: whether a `logging.error` branch fired (input was
not a list, or some element was not a dict).  For `resource_type` other than
"tasks" the function returns its input unfiltered. -/
def filterResults (data : RawInput) (resource_type : String) (db : DB)
    (employee_id : Nat) : List Row × Bool :=
  match data with
  | RawInput.nonList => ([], true)
  | RawInput.rows rs =>
    if rs.all RawRow.isDict then
      if resource_type == "tasks" then
        (((dictRows rs).filter fun row =>
            match rowGet row "id" with
            | Val.vnat n => (((getTasks db employee_id).1).map Task.id).contains n
            | _ => false),
         false)
      else
        (dictRows rs, false)
    else
      ([], true)

/-- Result object of `sql_agent.process_natural_language_query`. -/
structure SqlAgentResult where
  success : Bool
  data : RawInput
  error : String
deriving DecidableEq

/-- Behavior of the external data-fetch collaborator on this request:
either it raises an exception with a message, or it returns a result. -/
inductive FetchOutcome where
  | raises : String → FetchOutcome
  | returns : SqlAgentResult → FetchOutcome
deriving DecidableEq

/-- Abstract rendering of `str(e)` for the `AttributeError` raised by
`row.items()` when a non-dict element reaches the serialization loop. -/
def attrErrorMsg : String :=
  "attribute error while serializing rows"

/-- The dictionary `process_query` returns: `data` is `none` when the
returned dict has no "data" key. -/
structure QueryResponse where
  status : String
  message : String
  data : Option (List Row)
deriving DecidableEq

/-- Result of one `process_query` call: the response, the session state
(audit log) after the call, and the `(permission_name, resource_type)`
arguments of each `has_permission` call it made. -/
structure PQResult where
  response : QueryResponse
  db : DB
  permChecks : List (String × String)
deriving DecidableEq

/-- Embeds `ChatbotHandler.process_query`.  Notes tied to the source:
* Step 1: `if not user_context.get("employee_id")` is Python truthiness, so
  an existing actor with id `0` is also rejected as "Employee not found".
* Step 5 rejects a non-list payload without logging; the serialization loop
  raises `AttributeError` on a non-dict element, which the `except` branch
  turns into a logged failure; `serialize_result` on a list is the identity.
* Step 6 (empty payload) returns "success" before Step 7 examines
  `result.success`. -/
def processQuery (db : DB) (query_text : String) (employee_id : Nat)
    (fetch : FetchOutcome) : PQResult :=
  match firstEmployee db employee_id with
  | none => ⟨⟨"error", "Employee not found", none⟩, db, []⟩
  | some _ =>
    if employee_id == 0 then
      ⟨⟨"error", "Employee not found", none⟩, db, []⟩
    else
      match classify_query query_text with
      | (some resource_type, some permission_name) =>
        if !hasPermission db employee_id permission_name (some resource_type) then
          ⟨⟨"error",
            "You don't have permission to " ++ permission_name ++ " " ++ resource_type,
            none⟩,
           logAccess db employee_id resource_type 0 "view" false,
           [(permission_name, resource_type)]⟩
        else
          match fetch with
          | FetchOutcome.raises msg =>
            ⟨⟨"error", "Error processing query: " ++ msg, none⟩,
             logAccess db employee_id resource_type 0 "view" false,
             [(permission_name, resource_type)]⟩
          | FetchOutcome.returns result =>
            match result.data with
            | RawInput.nonList =>
              ⟨⟨"error", "Unexpected response format from SQL Agent", none⟩,
               db, [(permission_name, resource_type)]⟩
            | RawInput.rows rs =>
              if rs.any (fun r => !r.isDict) then
                ⟨⟨"error", "Error processing query: " ++ attrErrorMsg, none⟩,
                 logAccess db employee_id resource_type 0 "view" false,
                 [(permission_name, resource_type)]⟩
              else
                if (dictRows rs).length == 0 then
                  ⟨⟨"success", "No results found.", some []⟩,
                   db, [(permission_name, resource_type)]⟩
                else if !result.success then
                  ⟨⟨"error", "Query failed: " ++ result.error, none⟩,
                   logAccess db employee_id resource_type 0 "view" false,
                   [(permission_name, resource_type)]⟩
                else
                  ⟨⟨"success",
                    "Found "
                      ++ toString (filterResults
                            (RawInput.rows ((dictRows rs).map RawRow.dict))
                            resource_type db employee_id).1.length
                      ++ " results",
                    some (filterResults
                            (RawInput.rows ((dictRows rs).map RawRow.dict))
                            resource_type db employee_id).1⟩,
                   logAccess db employee_id resource_type 0 "view" true,
                   [(permission_name, resource_type)]⟩
      | _ =>
        ⟨⟨"error", "Unable to understand query. Please try a different phrasing.", none⟩,
         db, []⟩

/-! Concrete stores used by witnesses and counterexamples. -/

/-- Manager employee (no manager of their own). -/
def exEmp2 : Employee := ⟨2, "bob", "bob@x", "", "active", none⟩

/-- Employee reporting to employee 2. -/
def exEmp3 : Employee := ⟨3, "alice", "alice@x", "", "active", some 2⟩

/-- Store with two employees and no role assignments. -/
def exDB1 : DB := ⟨[exEmp2, exEmp3], [], [], [], [], [], [], [], [], []⟩

/-- Employee used by the audit-log scenarios. -/
def exEmp1 : Employee := ⟨1, "carol", "carol@x", "", "active", none⟩

/-- Task assigned to and created by employee 1. -/
def exTask1 : Task := ⟨1, "t1", "", "pending", "low", 1, 1, none⟩

/-- Meeting used by the audit-log scenarios. -/
def exMeeting1 : Meeting := ⟨"m1", "standup"⟩

/-- Store with one employee holding no roles, one task and one meeting. -/
def exDB2 : DB := ⟨[exEmp1], [], [], [], [], [], [exTask1], [exMeeting1], [], []⟩

/-- Task whose `team_id` column holds the integer 0. -/
def exTask6 : Task := ⟨1, "t", "", "pending", "medium", 2, 2, some 0⟩

/-- Store where employee 3 is the flagged manager of team 0 and the only
task belongs to team 0. -/
def exDB6 : DB := ⟨[exEmp2, exEmp3], [], [], [], [], [⟨0, 3, true⟩], [exTask6], [], [], []⟩

/-- Employee used by the `process_query` scenarios. -/
def exEmp5 : Employee := ⟨5, "eve", "eve@x", "", "active", none⟩

/-- Store where employee 5 holds role "employee" which grants permission
"view_own_tasks" on resource type "tasks", and one task of employee 5. -/
def exDB8 : DB :=
  ⟨[exEmp5], [⟨1, "employee"⟩], [⟨1, "view_own_tasks", "tasks"⟩],
   [⟨5, 1⟩], [⟨1, 1⟩], [], [⟨9, "t9", "", "pending", "low", 5, 5, none⟩], [], [], []⟩

/-- A keyed row carrying the id of the task in `exDB8`. -/
def exRow9 : Row := [("id", Val.vnat 9)]

/-! Claim theorems. -/

/-- C1: for every actor and every existing target employee, the
employee-view decision of `DataAccessLayer.get_employee` allows exactly when
the actor is the target, or the target's `manager_id` equals the actor, or
the actor holds role "hr" and permission "view_all_employees"; in every
other case (in particular an actor with no roles) it denies. -/
theorem c1_employee_view_decision (db : DB) (actor target_id : Nat) (T : Employee)
    (hT : firstEmployee db target_id = some T) :
    (getEmployee db target_id actor).1 =
      (if target_id == actor || T.manager_id == some actor
          || (hasRole db actor "hr" && hasPermission db actor "view_all_employees" none)
       then EmpResult.found T
       else EmpResult.denied) := by
  unfold getEmployee
  rw [hT]
  cases h1 : (target_id == actor) <;>
    cases h2 : (T.manager_id == some actor) <;>
      cases h3 : (hasRole db actor "hr"
          && hasPermission db actor "view_all_employees" none) <;>
        simp [h1, h2, h3]

/-- Witness for C1 at a concrete store: employee 3 viewing themselves. -/
theorem c1_employee_view_witness :
    firstEmployee exDB1 3 = some exEmp3 ∧
    (getEmployee exDB1 3 3).1 =
      (if (3 : Nat) == 3 || exEmp3.manager_id == some 3
          || (hasRole exDB1 3 "hr" && hasPermission exDB1 3 "view_all_employees" none)
       then EmpResult.found exEmp3
       else EmpResult.denied) :=
  ⟨rfl, c1_employee_view_decision exDB1 3 3 exEmp3 rfl⟩

/-- C6 counterexample: in `exDB6`, task 1 has `team_id = 0` (non-null) and
actor 3 is the flagged manager of team 0, yet `can_access_task` denies,
because the Python truthiness guard `if task.team_id` treats 0 as absent. -/
theorem c6_counterexample :
    canAccessTask exDB6 3 1 "view" = false
    ∧ firstTask exDB6 1 = some exTask6
    ∧ exTask6.team_id = some 0
    ∧ isTeamManager exDB6 3 0 = true
    ∧ exTask6.assigned_to_id ≠ 3 ∧ exTask6.created_by_id ≠ 3 := by
  refine ⟨rfl, rfl, rfl, rfl, by decide, by decide⟩

/-- C6 (amended): the task-view decision allows exactly when the actor is
the assignee, or the creator, or the task's `team_id` is present and nonzero
(Python truthiness) and the actor is that team's flagged manager, or the
action is "view" and the actor holds role "hr" and permission
"view_all_employees"; a non-existent task id yields deny. -/
theorem c6_task_view_decision (db : DB) (actor task_id : Nat) (action : String) :
    canAccessTask db actor task_id action = true ↔
      ∃ task, firstTask db task_id = some task ∧
        (task.assigned_to_id = actor ∨ task.created_by_id = actor
         ∨ (∃ g, task.team_id = some g ∧ g ≠ 0 ∧ isTeamManager db actor g = true)
         ∨ (action = "view" ∧ hasRole db actor "hr" = true
            ∧ hasPermission db actor "view_all_employees" none = true)) := by
  unfold canAccessTask
  cases hT : firstTask db task_id with
  | none => simp
  | some task =>
    simp only [Option.some.injEq]
    cases ht : task.team_id with
    | none =>
      cases h1 : (task.assigned_to_id == actor) <;>
        cases h2 : (task.created_by_id == actor) <;>
          cases h3 : (action == "view") <;>
            cases h4 : hasRole db actor "hr" <;>
              cases h5 : hasPermission db actor "view_all_employees" none <;>
                simp_all [optNatTruthy, beq_iff_eq]
    | some g =>
      cases h1 : (task.assigned_to_id == actor) <;>
        cases h2 : (task.created_by_id == actor) <;>
          cases hg : (g == 0) <;>
            cases hm : isTeamManager db actor g <;>
              cases h3 : (action == "view") <;>
                cases h4 : hasRole db actor "hr" <;>
                  cases h5 : hasPermission db actor "view_all_employees" none <;>
                    simp_all [optNatTruthy, beq_iff_eq]

/-- Two Booleans agreeing as propositions are equal. -/
theorem bool_eq_of_iff {a b : Bool} (h : a = true ↔ b = true) : a = b := by
  cases a <;> cases b <;> simp_all

/-- The role-name list built by `filter_tasks_for_user` contains a role name
exactly when `has_role` holds: the two SQL joins Role ⋈ UserRole and
UserRole ⋈ Role are non-empty for the same inputs. -/
theorem roleNames_contains_eq (db : DB) (actor : Nat) (rname : String) :
    ((getUserRoles db actor).map Role.name).contains rname = hasRole db actor rname := by
  refine bool_eq_of_iff ?_
  simp only [getUserRoles, hasRole, List.contains_iff_exists_mem_beq,
    List.mem_map, List.mem_filter, List.any_eq_true, Bool.and_eq_true,
    beq_iff_eq]
  constructor
  · rintro ⟨n, ⟨r, ⟨hr, ur, hur, hid, hemp⟩, hname⟩, hn⟩
    exact ⟨ur, hur, hemp, r, hr, hid.symm, by rw [hname, ← hn]⟩
  · rintro ⟨ur, hur, hemp, r, hr, hid, hname⟩
    exact ⟨rname, ⟨r, ⟨hr, ur, hur, hid.symm, hemp⟩, hname⟩, rfl⟩

/-- The managed-team-id list built by the manager branch of
`filter_tasks_for_user` contains a team id exactly when `is_team_manager`
holds for it. -/
theorem managedIds_contains_eq (db : DB) (actor g : Nat) :
    (((db.team_members.filter fun tm =>
        tm.employee_id == actor && tm.is_manager).map
      (fun tm => tm.team_id)).contains g) = isTeamManager db actor g := by
  refine bool_eq_of_iff ?_
  simp only [isTeamManager, List.contains_iff_exists_mem_beq, List.mem_map,
    List.mem_filter, List.any_eq_true, Bool.and_eq_true, beq_iff_eq]
  constructor
  · rintro ⟨n, ⟨tm, ⟨htm, hemp, hmgr⟩, hid⟩, hn⟩
    exact ⟨tm, htm, ⟨hemp, by rw [hid, ← hn]⟩, hmgr⟩
  · rintro ⟨tm, htm, ⟨hemp, hid⟩, hmgr⟩
    exact ⟨g, ⟨tm, ⟨htm, hemp, hmgr⟩, hid⟩, rfl⟩

/-- C3: `filter_tasks_for_user` returns exactly all tasks for an HR-role
holder; otherwise, for a manager-role holder, the tasks assigned to, created
by, or belonging to a team flag-managed by the actor; otherwise the tasks
assigned to or created by the actor. -/
theorem c3_filter_tasks (db : DB) (actor : Nat) (t : Task) :
    t ∈ filterTasksForUser db actor ↔
      t ∈ db.tasks ∧
        (if hasRole db actor "hr" = true then True
         else if hasRole db actor "manager" = true then
           t.assigned_to_id = actor ∨ t.created_by_id = actor
           ∨ ∃ g, t.team_id = some g ∧ isTeamManager db actor g = true
         else t.assigned_to_id = actor ∨ t.created_by_id = actor) := by
  unfold filterTasksForUser
  rw [roleNames_contains_eq db actor "hr", roleNames_contains_eq db actor "manager"]
  cases hhr : hasRole db actor "hr" with
  | true => simp [hhr]
  | false =>
    cases hm : hasRole db actor "manager" with
    | false => simp [hhr, hm, List.mem_filter, beq_iff_eq]
    | true =>
      simp only [hhr, hm, Bool.false_eq_true, if_false, if_true, List.mem_filter]
      refine and_congr_right fun _ => ?_
      cases ht : t.team_id with
      | none => simp [ht, beq_iff_eq]
      | some g =>
        simp only [ht]
        rw [managedIds_contains_eq db actor g]
        simp [beq_iff_eq, or_assoc]

/-- C10: an actor holding neither the "hr" role nor the "manager" role gets
at most their own record from `DataAccessLayer.get_employees`: exactly the
record found under their own id, and the empty list when none exists. -/
theorem c10_bulk_employees (db : DB) (actor : Nat)
    (h1 : hasRole db actor "hr" = false) (h2 : hasRole db actor "manager" = false) :
    (getEmployees db actor).1 = (firstEmployee db actor).toList
    ∧ ∀ e ∈ (getEmployees db actor).1, e.id = actor := by
  unfold getEmployees
  simp only [h1, Bool.false_and, Bool.false_eq_true, if_false, h2]
  cases hf : firstEmployee db actor with
  | none => simp
  | some e =>
    have he : e.id = actor := by
      have := List.find?_some (by simpa [firstEmployee] using hf)
      simpa [beq_iff_eq] using this
    simp [he]

/-- Witness for C10: employee 3 of `exDB1` holds no roles and the bulk
listing returns only their own record. -/
theorem c10_bulk_employees_witness :
    hasRole exDB1 3 "hr" = false ∧ hasRole exDB1 3 "manager" = false
    ∧ (getEmployees exDB1 3).1 = (firstEmployee exDB1 3).toList
    ∧ ∀ e ∈ (getEmployees exDB1 3).1, e.id = 3 :=
  ⟨rfl, rfl,
   (c10_bulk_employees exDB1 3 rfl rfl).1,
   (c10_bulk_employees exDB1 3 rfl rfl).2⟩

/-- C2 counterexample: in `exDB2` the call `get_tasks(1)` (the
`filter_tasks_for_actor` entry point) reaches its terminal decision — it
returns the actor's task list — yet appends no AccessLog row at all: the
`log_access` call in `DataAccessLayer.get_tasks` is commented out and
`filter_tasks_for_user` contains none. -/
theorem c2_counterexample :
    (getTasks exDB2 1).1 ≠ []
    ∧ (getTasks exDB2 1).2.access_logs.length = exDB2.access_logs.length
    ∧ (getTasks exDB2 1).2.access_logs.length ≠ exDB2.access_logs.length + 1 := by
  refine ⟨by decide, rfl, by decide⟩

/-- C2 (amended): the `can_view_*` single-resource view decisions log
exactly one row — `get_employee`, `get_task` and `get_meeting` each append
exactly one AccessLog row whose `employee_id` is the actor and whose success
flag equals the decision outcome — while `filter_tasks_for_actor`
(`get_tasks`) appends no AccessLog row, its log call being commented out. -/
theorem c2_audit_rows (db : DB) (actor tid kid : Nat) (mid : String)
    (T : Employee) (K : Task) (M : Meeting)
    (hT : firstEmployee db tid = some T) (hK : firstTask db kid = some K)
    (hM : firstMeeting db mid = some M) :
    (∃ b, (getEmployee db tid actor).2.access_logs
            = db.access_logs ++ [⟨actor, "employee", tid, "view", b⟩]
          ∧ (b = true ↔ (getEmployee db tid actor).1 = EmpResult.found T))
    ∧ (∃ b, (getTask db kid actor).2.access_logs
            = db.access_logs ++ [⟨actor, "task", kid, "view", b⟩]
          ∧ (b = true ↔ (getTask db kid actor).1 = TaskResult.found K))
    ∧ (∃ b, (getMeeting db mid actor).2.access_logs
            = db.access_logs ++ [⟨actor, "meeting", 0, "view", b⟩]
          ∧ (b = true ↔ (getMeeting db mid actor).1 = MeetingResult.found M))
    ∧ (getTasks db actor).2 = db := by
  refine ⟨?_, ?_, ?_, rfl⟩
  · unfold getEmployee
    rw [hT]
    cases h1 : (tid == actor) <;>
      cases h2 : (T.manager_id == some actor) <;>
        cases h3 : (hasRole db actor "hr"
            && hasPermission db actor "view_all_employees" none) <;>
          simp [h1, h2, h3, logAccess]
  · unfold getTask
    rw [hK]
    cases hca : canAccessTask db actor kid "view" <;> simp [hca, logAccess]
  · unfold getMeeting
    rw [hM]
    cases hcm : canAccessMeeting db actor mid <;> simp [hcm, logAccess]

/-- Witness for the amended C2 in `exDB2`: a decision on employee 1, task 1
and meeting "m1" each log one row; the bulk task filter logs none. -/
theorem c2_audit_rows_witness :
    firstEmployee exDB2 1 = some exEmp1 ∧ firstTask exDB2 1 = some exTask1
    ∧ firstMeeting exDB2 "m1" = some exMeeting1
    ∧ (∃ b, (getEmployee exDB2 1 1).2.access_logs
            = exDB2.access_logs ++ [⟨1, "employee", 1, "view", b⟩]
          ∧ (b = true ↔ (getEmployee exDB2 1 1).1 = EmpResult.found exEmp1))
    ∧ (∃ b, (getTask exDB2 1 1).2.access_logs
            = exDB2.access_logs ++ [⟨1, "task", 1, "view", b⟩]
          ∧ (b = true ↔ (getTask exDB2 1 1).1 = TaskResult.found exTask1))
    ∧ (∃ b, (getMeeting exDB2 "m1" 1).2.access_logs
            = exDB2.access_logs ++ [⟨1, "meeting", 0, "view", b⟩]
          ∧ (b = true ↔ (getMeeting exDB2 "m1" 1).1 = MeetingResult.found exMeeting1))
    ∧ (getTasks exDB2 1).2 = exDB2 :=
  ⟨rfl, rfl, rfl,
   (c2_audit_rows exDB2 1 1 1 "m1" exEmp1 exTask1 exMeeting1 rfl rfl rfl).1,
   (c2_audit_rows exDB2 1 1 1 "m1" exEmp1 exTask1 exMeeting1 rfl rfl rfl).2.1,
   (c2_audit_rows exDB2 1 1 1 "m1" exEmp1 exTask1 exMeeting1 rfl rfl rfl).2.2.1,
   (c2_audit_rows exDB2 1 1 1 "m1" exEmp1 exTask1 exMeeting1 rfl rfl rfl).2.2.2⟩

/-- C4: for a well-formed row list and any resource type other than "tasks",
`_filter_results` passes the rows through unchanged, fields included, and no
error branch fires. -/
theorem c4_passthrough (rows : List Row) (resource_type : String) (db : DB)
    (actor : Nat) (h : resource_type ≠ "tasks") :
    filterResults (RawInput.rows (rows.map RawRow.dict)) resource_type db actor
      = (rows, false) := by
  have hall : (rows.map RawRow.dict).all RawRow.isDict = true := by
    simp [List.all_eq_true, RawRow.isDict]
  have hrt : (resource_type == "tasks") = false := by
    simpa [beq_iff_eq] using h
  simp only [filterResults, hall, hrt, dictRows, List.filterMap_map,
    Bool.false_eq_true, if_false, if_true]
  have hcomp : ((fun r =>
      match r with
      | RawRow.dict d => some d
      | RawRow.nonDict => none) ∘ RawRow.dict) = fun d : Row => some d := by
    funext d
    rfl
  rw [hcomp]
  exact Prod.ext (List.filterMap_some rows) rfl

/-- Witness for C4: a one-row list under resource type "employees" is
returned unchanged. -/
theorem c4_passthrough_witness :
    ("employees" : String) ≠ "tasks"
    ∧ filterResults (RawInput.rows ([exRow9].map RawRow.dict)) "employees" exDB1 3
        = ([exRow9], false) :=
  ⟨by decide, c4_passthrough [exRow9] "employees" exDB1 3 (by decide)⟩

/-- Membership in the extracted dict rows is membership of the dict element
in the raw list. -/
theorem mem_dictRows {r : Row} {rs : List RawRow} :
    r ∈ dictRows rs ↔ RawRow.dict r ∈ rs := by
  simp only [dictRows, List.mem_filterMap]
  constructor
  · rintro ⟨a, ha, hfa⟩
    cases a with
    | dict d => simp only [Option.some.injEq] at hfa; rwa [hfa] at ha
    | nonDict => simp at hfa
  · intro hmem
    exact ⟨RawRow.dict r, hmem, rfl⟩

/-- C7: when the input to `_filter_results` is not a list, or any of its
elements is not a dict, the function returns the empty list and fires a
`logging.error` branch, for every resource type. -/
theorem c7_malformed_rejected (data : RawInput) (resource_type : String)
    (db : DB) (actor : Nat)
    (h : data = RawInput.nonList
      ∨ ∃ rs, data = RawInput.rows rs ∧ rs.any (fun r => !r.isDict) = true) :
    filterResults data resource_type db actor = ([], true) := by
  rcases h with h | ⟨rs, h, hany⟩
  · rw [h]
    rfl
  · rw [h]
    have hall : rs.all RawRow.isDict = false := by
      rcases List.any_eq_true.mp hany with ⟨r, hrmem, hr⟩
      rcases List.all_eq_false.mpr ⟨r, hrmem, by simpa using hr⟩ with h'
      exact h'
    simp [filterResults, hall]

/-- Witness for C7: a list holding one non-dict element is rejected. -/
theorem c7_malformed_rejected_witness :
    ((RawInput.rows [RawRow.dict exRow9, RawRow.nonDict] = RawInput.nonList)
      ∨ ∃ rs, RawInput.rows [RawRow.dict exRow9, RawRow.nonDict] = RawInput.rows rs
          ∧ rs.any (fun r => !r.isDict) = true)
    ∧ filterResults (RawInput.rows [RawRow.dict exRow9, RawRow.nonDict])
        "employees" exDB1 3 = ([], true) :=
  ⟨Or.inr ⟨[RawRow.dict exRow9, RawRow.nonDict], rfl, by decide⟩,
   c7_malformed_rejected (RawInput.rows [RawRow.dict exRow9, RawRow.nonDict])
     "employees" exDB1 3
     (Or.inr ⟨[RawRow.dict exRow9, RawRow.nonDict], rfl, by decide⟩)⟩

/-- C9: every row returned by `_filter_results` is literally one of the
input rows — the filter never introduces a row (hence never an id) that was
not present in its input. -/
theorem c9_filter_subset (data : RawInput) (resource_type : String) (db : DB)
    (actor : Nat) (r : Row)
    (hr : r ∈ (filterResults data resource_type db actor).1) :
    ∃ rs, data = RawInput.rows rs ∧ RawRow.dict r ∈ rs := by
  cases data with
  | nonList => simp [filterResults] at hr
  | rows rs =>
    refine ⟨rs, rfl, ?_⟩
    rw [← mem_dictRows]
    cases hall : rs.all RawRow.isDict with
    | false => simp [filterResults, hall] at hr
    | true =>
      cases hrt : (resource_type == "tasks") with
      | true =>
        simp only [filterResults, hall, hrt, if_true] at hr
        exact (List.mem_filter.mp hr).1
      | false =>
        simp only [filterResults, hall, hrt, Bool.false_eq_true, if_false,
          if_true] at hr
        exact hr

/-- Witness for C9: the row kept by the tasks filter in `exDB8` came from
the input. -/
theorem c9_filter_subset_witness :
    exRow9 ∈ (filterResults (RawInput.rows [RawRow.dict exRow9]) "tasks" exDB8 5).1
    ∧ ∃ rs, RawInput.rows [RawRow.dict exRow9] = RawInput.rows rs
        ∧ RawRow.dict exRow9 ∈ rs :=
  ⟨by decide,
   c9_filter_subset (RawInput.rows [RawRow.dict exRow9]) "tasks" exDB8 5 exRow9
     (by decide)⟩

/-- C5: a query containing none of the classifier's keywords classifies to
`(none, none)`, and `process_query` on it returns status "error" having made
no `has_permission` call and having written no AccessLog row, whatever the
external fetch would have done. -/
theorem c5_unclassified_query (db : DB) (q : String) (actor : Nat)
    (fetch : FetchOutcome)
    (h1 : strIn "task" (lowerChars q) = false)
    (h2 : strIn "tasks" (lowerChars q) = false)
    (h3 : strIn "meeting" (lowerChars q) = false)
    (h4 : strIn "meetings" (lowerChars q) = false)
    (h5 : strIn "employee" (lowerChars q) = false)
    (h6 : strIn "employees" (lowerChars q) = false)
    (h7 : strIn "team members" (lowerChars q) = false)
    (h8 : strIn "performance" (lowerChars q) = false)
    (h9 : strIn "sentiment" (lowerChars q) = false) :
    classify_query q = (none, none)
    ∧ (processQuery db q actor fetch).response.status = "error"
    ∧ (processQuery db q actor fetch).permChecks = []
    ∧ (processQuery db q actor fetch).db = db := by
  have hc : classify_query q = (none, none) := by
    unfold classify_query
    simp [h1, h2, h3, h4, h5, h6, h7, h8, h9]
  refine ⟨hc, ?_⟩
  unfold processQuery
  cases hf : firstEmployee db actor with
  | none => exact ⟨rfl, rfl, rfl⟩
  | some e =>
    cases ha : (actor == 0) with
    | true => simp [ha]
    | false => simp [ha, hc]

/-- Witness for C5: the query "hello world" matches no rule; with the fetch
poised to raise, the call still errors without a check or a log row. -/
theorem c5_unclassified_query_witness :
    strIn "task" (lowerChars "hello world") = false
    ∧ strIn "sentiment" (lowerChars "hello world") = false
    ∧ classify_query "hello world" = (none, none)
    ∧ (processQuery exDB1 "hello world" 3 (FetchOutcome.raises "boom")).response.status
        = "error"
    ∧ (processQuery exDB1 "hello world" 3 (FetchOutcome.raises "boom")).permChecks = []
    ∧ (processQuery exDB1 "hello world" 3 (FetchOutcome.raises "boom")).db = exDB1 :=
  ⟨by decide, by decide,
   (c5_unclassified_query exDB1 "hello world" 3 (FetchOutcome.raises "boom")
      (by decide) (by decide) (by decide) (by decide) (by decide) (by decide)
      (by decide) (by decide) (by decide)).1,
   (c5_unclassified_query exDB1 "hello world" 3 (FetchOutcome.raises "boom")
      (by decide) (by decide) (by decide) (by decide) (by decide) (by decide)
      (by decide) (by decide) (by decide)).2.1,
   (c5_unclassified_query exDB1 "hello world" 3 (FetchOutcome.raises "boom")
      (by decide) (by decide) (by decide) (by decide) (by decide) (by decide)
      (by decide) (by decide) (by decide)).2.2.1,
   (c5_unclassified_query exDB1 "hello world" 3 (FetchOutcome.raises "boom")
      (by decide) (by decide) (by decide) (by decide) (by decide) (by decide)
      (by decide) (by decide) (by decide)).2.2.2⟩

/-- When every element is a dict, extraction preserves the length. -/
theorem dictRows_length_of_all {rs : List RawRow}
    (h : rs.all RawRow.isDict = true) :
    (dictRows rs).length = rs.length := by
  induction rs with
  | nil => rfl
  | cons a as ih =>
    rw [List.all_cons, Bool.and_eq_true] at h
    cases a with
    | dict d =>
      have hstep : dictRows (RawRow.dict d :: as) = d :: dictRows as := by
        simp [dictRows, List.filterMap_cons]
      rw [hstep, List.length_cons, List.length_cons, ih h.2]
    | nonDict => simp [RawRow.isDict] at h

/-- C8 counterexample: in `exDB8` the fetch reports an unsuccessful result
whose payload is the empty list; `process_query` nevertheless returns status
"success" (the empty-dataset return precedes the `result.success` check) and
writes no AccessLog row. -/
theorem c8_counterexample :
    (processQuery exDB8 "show my tasks" 5
        (FetchOutcome.returns ⟨false, RawInput.rows [], "db down"⟩)).response.status
      = "success"
    ∧ (processQuery exDB8 "show my tasks" 5
        (FetchOutcome.returns ⟨false, RawInput.rows [], "db down"⟩)).db.access_logs
      = exDB8.access_logs := by
  exact ⟨rfl, rfl⟩

/-- C8 (amended): once a query reaches the fetch step, a raising fetch is
logged success=false and answered with status "error" and no data, and so is
an unsuccessful result carrying a non-empty list payload; but an
unsuccessful result carrying the empty list yields status "success" with
empty data and no log row, and a non-list payload yields status "error"
with no log row. -/
theorem c8_fetch_failure (db : DB) (q : String) (eid : Nat) (E : Employee)
    (rt pn msg err : String) (rs : List RawRow)
    (h0 : eid ≠ 0) (h1 : firstEmployee db eid = some E)
    (h2 : classify_query q = (some rt, some pn))
    (h3 : hasPermission db eid pn (some rt) = true)
    (h4 : rs ≠ []) :
    ((processQuery db q eid (FetchOutcome.raises msg)).response.status = "error"
      ∧ (processQuery db q eid (FetchOutcome.raises msg)).response.data = none
      ∧ (processQuery db q eid (FetchOutcome.raises msg)).db.access_logs
          = db.access_logs ++ [⟨eid, rt, 0, "view", false⟩])
    ∧ ((processQuery db q eid
          (FetchOutcome.returns ⟨false, RawInput.rows rs, err⟩)).response.status
          = "error"
      ∧ (processQuery db q eid
          (FetchOutcome.returns ⟨false, RawInput.rows rs, err⟩)).response.data = none
      ∧ (processQuery db q eid
          (FetchOutcome.returns ⟨false, RawInput.rows rs, err⟩)).db.access_logs
          = db.access_logs ++ [⟨eid, rt, 0, "view", false⟩])
    ∧ ((processQuery db q eid
          (FetchOutcome.returns ⟨false, RawInput.rows [], err⟩)).response.status
          = "success"
      ∧ (processQuery db q eid
          (FetchOutcome.returns ⟨false, RawInput.rows [], err⟩)).response.data
          = some []
      ∧ (processQuery db q eid
          (FetchOutcome.returns ⟨false, RawInput.rows [], err⟩)).db = db)
    ∧ ((processQuery db q eid
          (FetchOutcome.returns ⟨false, RawInput.nonList, err⟩)).response.status
          = "error"
      ∧ (processQuery db q eid
          (FetchOutcome.returns ⟨false, RawInput.nonList, err⟩)).response.data = none
      ∧ (processQuery db q eid
          (FetchOutcome.returns ⟨false, RawInput.nonList, err⟩)).db = db) := by
  have he0 : (eid == 0) = false := by
    simpa [beq_iff_eq] using h0
  refine ⟨?_, ?_, ?_, ?_⟩
  · simp [processQuery, h1, he0, h2, h3, logAccess]
  · cases hany : rs.any (fun r => !r.isDict) with
    | true => simp [processQuery, h1, he0, h2, h3, hany, logAccess]
    | false =>
      have hall : rs.all RawRow.isDict = true := by
        rw [List.all_eq_true]
        intro r hrmem
        by_contra hcon
        have hne : (!r.isDict) = true := by
          simp [Bool.not_eq_true'] at hcon ⊢
          simpa using hcon
        have : rs.any (fun r => !r.isDict) = true :=
          List.any_eq_true.mpr ⟨r, hrmem, hne⟩
        simp [hany] at this
      have hlenne : rs.length ≠ 0 := by
        simpa [List.length_eq_zero] using h4
      have hlen0 : ((dictRows rs).length == 0) = false := by
        rw [dictRows_length_of_all hall]
        cases hb : (rs.length == 0) with
        | false => rfl
        | true => exact absurd (by simpa using hb) hlenne
      simp [processQuery, h1, he0, h2, h3, hany, hlen0, logAccess]
  · simp [processQuery, h1, he0, h2, h3, dictRows]
  · simp [processQuery, h1, he0, h2, h3]

/-- Witness for the amended C8 in `exDB8` with the query "show my tasks". -/
theorem c8_fetch_failure_witness :
    (5 : Nat) ≠ 0
    ∧ firstEmployee exDB8 5 = some exEmp5
    ∧ classify_query "show my tasks" = (some "tasks", some "view_own_tasks")
    ∧ hasPermission exDB8 5 "view_own_tasks" (some "tasks") = true
    ∧ ([RawRow.dict exRow9] : List RawRow) ≠ []
    ∧ (processQuery exDB8 "show my tasks" 5
        (FetchOutcome.raises "boom")).response.status = "error"
    ∧ (processQuery exDB8 "show my tasks" 5
        (FetchOutcome.returns ⟨false, RawInput.rows [RawRow.dict exRow9], "db down"⟩)).db.access_logs
        = exDB8.access_logs ++ [⟨5, "tasks", 0, "view", false⟩] :=
  ⟨by decide, rfl, rfl, rfl, by decide,
   (c8_fetch_failure exDB8 "show my tasks" 5 exEmp5 "tasks" "view_own_tasks"
      "boom" "db down" [RawRow.dict exRow9]
      (by decide) rfl rfl rfl (by decide)).1.1,
   (c8_fetch_failure exDB8 "show my tasks" 5 exEmp5 "tasks" "view_own_tasks"
      "boom" "db down" [RawRow.dict exRow9]
      (by decide) rfl rfl rfl (by decide)).2.1.2.2⟩

end FullIntegration
